import Mathlib

/-!
Shallow embedding of `pydantic-obstore` (src/pydantic_obstore/config.py and
src/pydantic_obstore/store.py): six pydantic models (ClientConfig,
BackoffConfig, RetryConfig, Config, ObjectMeta, GetOptions), their
construction-time validation, and their `model_dump` serialization.

Python runtime values that can appear in an input map or a dumped map are
modelled by the inductive type `PyVal`.  Machine details we never compute
with (IEEE doubles, timezone data) are carried as opaque integer payloads:
a `timedelta` is its total microseconds, a `datetime` an epoch microsecond
count, a `float` an opaque mantissa/exponent pair that is only ever passed
through.  Pydantic lax coercions that this repository neither uses nor
tests (numeric strings for int fields, epoch numbers / ISO strings for
datetime fields, ISO strings for timedelta fields) are modelled as
exact-type checks; every behaviour exercised by the repository's tests is
modelled as the tests record it (in particular, a native `range` object
fed to the `Sequence[int]` member of `GetOptions.range` is materialized
into a list at validation time, and list / tuple / dict inputs keep their
shape).
-/

/-- A Python runtime value, as far as these schemas can observe one. -/
inductive PyVal where
  | none
  | bool (b : Bool)
  | int (n : Int)
  | float (mantissa exponent : Int)
  | str (s : String)
  | bytes (bs : List Nat)
  | timedelta (us : Int)
  | datetime (us : Int)
  | list (xs : List PyVal)
  | tuple (xs : List PyVal)
  | dict (entries : List (String × PyVal))
  | pyrange (start stop step : Int)

/-- Is this value Python `None`?  (`model_dump(exclude_none=True)` drops it.) -/
def isNoneVal : PyVal → Bool
  | PyVal.none => true
  | _ => false

/-- Is this value a native Python `range` object? -/
def isPyrangeVal : PyVal → Bool
  | PyVal.pyrange _ _ _ => true
  | _ => false

/-- All elements are Python ints (`Sequence[int]` / `tuple[int, int]` items). -/
def allInts : List PyVal → Bool
  | [] => true
  | PyVal.int _ :: rest => allInts rest
  | _ => false

/-- All mapped values are Python ints (`dict[str, int]` values). -/
def allIntVals : List (String × PyVal) → Bool
  | [] => true
  | (_, PyVal.int _) :: rest => allIntVals rest
  | _ => false

/-- Number of elements of Python `range(start, stop, step)` (step assumed
nonzero, as Python raises on `range(.., .., 0)` at construction). -/
def rangeLen (start stop step : Int) : Nat :=
  if 0 < step then ((stop - start + step - 1) / step).toNat
  else if step < 0 then ((start - stop + (-step) - 1) / (-step)).toNat
  else 0

/-- The list `list(range(start, stop, step))` of a Python range object. -/
def rangeList (start stop step : Int) : List Int :=
  (List.range (rangeLen start stop step)).map (fun i => start + step * (i : Int))

/-- A header value of `ClientConfig.default_headers : Dict[str, Union[str, bytes]]`. -/
inductive HdrVal where
  | hstr (s : String)
  | hbytes (bs : List Nat)

/-- A value of `BackoffConfig.base : int | float | None` (when present). -/
inductive NumVal where
  | nInt (i : Int)
  | nFloat (mantissa exponent : Int)

/-- `ClientConfig` (config.py lines 7-112).  The four timeout-like fields are
typed `str | timedelta | None` in the source and are stored here as the
`PyVal` they were given (the before-validator passes them through
unchanged), `PyVal.none` standing for Python `None`. -/
structure ClientConfig where
  allow_http : Option Bool
  allow_invalid_certificates : Option Bool
  connect_timeout : PyVal
  default_content_type : Option String
  default_headers : Option (List (String × HdrVal))
  http1_only : Option Bool
  http2_keep_alive_interval : Option String
  http2_keep_alive_timeout : PyVal
  http2_keep_alive_while_idle : Option String
  http2_only : Option Bool
  pool_idle_timeout : PyVal
  pool_max_idle_per_host : Option String
  proxy_url : Option String
  timeout : PyVal
  user_agent : Option String

/-- `BackoffConfig` (config.py lines 115-137); durations as microseconds. -/
structure BackoffConfig where
  base : Option NumVal
  init_backoff : Option Int
  max_backoff : Option Int

/-- `RetryConfig` (config.py lines 140-171). -/
structure RetryConfig where
  backoff : Option BackoffConfig
  max_retries : Option Int
  retry_timeout : Option Int

/-- `Config` (config.py lines 174-180).  Note: unlike the other five models
it declares no `model_config = ConfigDict(extra="forbid")`. -/
structure Config where
  client_options : Option ClientConfig
  retry_options : Option RetryConfig

/-- `ObjectMeta` (store.py lines 7-28); `last_modified` as epoch microseconds. -/
structure ObjectMeta where
  path : String
  last_modified : Int
  size : Int
  e_tag : Option String
  version : Option String

/-- `GetOptions` (store.py lines 31-80).  The polymorphic `range` field is
stored as the validated `PyVal` (`PyVal.none` standing for Python `None`). -/
structure GetOptions where
  head : Option Bool
  if_match : Option String
  if_modified_since : Option Int
  if_none_match : Option String
  if_unmodified_since : Option Int
  range : PyVal
  version : Option String

/-- Declared field names of `ClientConfig`, in declaration order. -/
def clientConfigFields : List String :=
  ["allow_http", "allow_invalid_certificates", "connect_timeout",
   "default_content_type", "default_headers", "http1_only",
   "http2_keep_alive_interval", "http2_keep_alive_timeout",
   "http2_keep_alive_while_idle", "http2_only", "pool_idle_timeout",
   "pool_max_idle_per_host", "proxy_url", "timeout", "user_agent"]

/-- Declared field names of `BackoffConfig`. -/
def backoffConfigFields : List String := ["base", "init_backoff", "max_backoff"]

/-- Declared field names of `RetryConfig`. -/
def retryConfigFields : List String := ["backoff", "max_retries", "retry_timeout"]

/-- Declared field names of `Config`. -/
def configFields : List String := ["client_options", "retry_options"]

/-- Declared field names of `ObjectMeta`. -/
def objectMetaFields : List String :=
  ["path", "last_modified", "size", "e_tag", "version"]

/-- Declared field names of `GetOptions`. -/
def getOptionsFields : List String :=
  ["head", "if_match", "if_modified_since", "if_none_match",
   "if_unmodified_since", "range", "version"]

/-- The `extra="forbid"` closed-schema check: every input key is declared. -/
def knownKeysOnly (fields : List String) (m : List (String × PyVal)) : Bool :=
  m.all (fun kv => fields.contains kv.1)

/-! ### Field decoders

One decoder per declared field type.  Each takes the input map's entry for
the field (`Option.none` when the key is absent) and returns the validated
stored value or a validation error. -/

/-- `bool | None` field: absent or `None` stays `None`; a bool passes. -/
def decodeOptBool : Option PyVal → Except String (Option Bool)
  | Option.none => .ok Option.none
  | some PyVal.none => .ok Option.none
  | some (PyVal.bool b) => .ok (some b)
  | some _ => .error "Input should be a valid boolean"

/-- `str | None` field. -/
def decodeOptStr : Option PyVal → Except String (Option String)
  | Option.none => .ok Option.none
  | some PyVal.none => .ok Option.none
  | some (PyVal.str s) => .ok (some s)
  | some _ => .error "Input should be a valid string"

/-- `int | None` field. -/
def decodeOptInt : Option PyVal → Except String (Option Int)
  | Option.none => .ok Option.none
  | some PyVal.none => .ok Option.none
  | some (PyVal.int n) => .ok (some n)
  | some _ => .error "Input should be a valid integer"

/-- `timedelta | None` field (stored as microseconds). -/
def decodeOptDelta : Option PyVal → Except String (Option Int)
  | Option.none => .ok Option.none
  | some PyVal.none => .ok Option.none
  | some (PyVal.timedelta us) => .ok (some us)
  | some _ => .error "Input should be a valid timedelta"

/-- `datetime | None` field (stored as epoch microseconds). -/
def decodeOptDatetime : Option PyVal → Except String (Option Int)
  | Option.none => .ok Option.none
  | some PyVal.none => .ok Option.none
  | some (PyVal.datetime us) => .ok (some us)
  | some _ => .error "Input should be a valid datetime"

/-- Required `str` field: a missing key is a validation error. -/
def decodeReqStr : Option PyVal → Except String String
  | Option.none => .error "Field required"
  | some (PyVal.str s) => .ok s
  | some _ => .error "Input should be a valid string"

/-- Required `datetime` field. -/
def decodeReqDatetime : Option PyVal → Except String Int
  | Option.none => .error "Field required"
  | some (PyVal.datetime us) => .ok us
  | some _ => .error "Input should be a valid datetime"

/-- Required `int` field. -/
def decodeReqInt : Option PyVal → Except String Int
  | Option.none => .error "Field required"
  | some (PyVal.int n) => .ok n
  | some _ => .error "Input should be a valid integer"

/-- `int | float | None` field (`BackoffConfig.base`). -/
def decodeNum : Option PyVal → Except String (Option NumVal)
  | Option.none => .ok Option.none
  | some PyVal.none => .ok Option.none
  | some (PyVal.int i) => .ok (some (NumVal.nInt i))
  | some (PyVal.float m e) => .ok (some (NumVal.nFloat m e))
  | some _ => .error "Input should be a valid number"

/-- `ClientConfig.validate_timeout_fields` (config.py lines 98-112), the
`mode="before"` validator shared by `connect_timeout`,
`http2_keep_alive_timeout`, `pool_idle_timeout` and `timeout`:
`None`, strings and timedeltas pass through unchanged, anything else
raises. -/
def validate_timeout_fields : PyVal → Except String PyVal
  | PyVal.none => .ok PyVal.none
  | PyVal.str s => .ok (PyVal.str s)
  | PyVal.timedelta us => .ok (PyVal.timedelta us)
  | _ => .error "Timeout fields must be string, timedelta, or None"

/-- The declared-type check `str | timedelta | None` that runs after the
before-validator on a timeout-like field. -/
def timeoutTypeCheck : PyVal → Except String PyVal
  | PyVal.none => .ok PyVal.none
  | PyVal.str s => .ok (PyVal.str s)
  | PyVal.timedelta us => .ok (PyVal.timedelta us)
  | _ => .error "Input should be a valid string or timedelta"

/-- Full validation of a timeout-like field: before-validator, then the
declared union type. -/
def decodeTimeout : Option PyVal → Except String PyVal
  | Option.none => .ok PyVal.none
  | some v => validate_timeout_fields v >>= timeoutTypeCheck

/-- One header value of `Dict[str, Union[str, bytes]]`. -/
def decodeHdrVal : PyVal → Except String HdrVal
  | PyVal.str s => .ok (HdrVal.hstr s)
  | PyVal.bytes bs => .ok (HdrVal.hbytes bs)
  | _ => .error "Input should be a valid string or bytes"

/-- All entries of a headers dict. -/
def decodeHdrEntries : List (String × PyVal) → Except String (List (String × HdrVal))
  | [] => .ok []
  | (k, v) :: rest => do
      let h ← decodeHdrVal v
      let t ← decodeHdrEntries rest
      .ok ((k, h) :: t)

/-- `Dict[str, Union[str, bytes]] | None` field (`default_headers`). -/
def decodeHeaders : Option PyVal → Except String (Option (List (String × HdrVal)))
  | Option.none => .ok Option.none
  | some PyVal.none => .ok Option.none
  | some (PyVal.dict es) => do
      let hs ← decodeHdrEntries es
      .ok (some hs)
  | some _ => .error "Input should be a valid dictionary"

/-- Validation of `GetOptions.range : tuple[int, int] | Sequence[int] |
dict[str, int] | None` on a present value.  Tuples of ints keep their
shape (a 2-tuple via the `tuple[int, int]` member, any other length via
`Sequence[int]`, with identical result), lists of ints stay lists, a
native `range` object is materialized into a list (as the repository's
tests record), and a dict passes whenever all its values are ints — the
declared type puts no constraint on its keys. -/
def decodeRangeVal : PyVal → Except String PyVal
  | PyVal.none => .ok PyVal.none
  | PyVal.tuple xs =>
      if allInts xs then .ok (PyVal.tuple xs)
      else .error "Input should be a valid range"
  | PyVal.list xs =>
      if allInts xs then .ok (PyVal.list xs)
      else .error "Input should be a valid range"
  | PyVal.pyrange s e st => .ok (PyVal.list ((rangeList s e st).map PyVal.int))
  | PyVal.dict es =>
      if allIntVals es then .ok (PyVal.dict es)
      else .error "Input should be a valid range"
  | _ => .error "Input should be a valid range"

/-- The `range` field including the absent case. -/
def decodeRange : Option PyVal → Except String PyVal
  | Option.none => .ok PyVal.none
  | some v => decodeRangeVal v

/-! ### Model validation (construction from an input map) -/

/-- Construction of `ClientConfig` from a keyword/input map.  The model has
`extra="forbid"`, so unknown keys are a validation error. -/
def validateClientConfig (m : List (String × PyVal)) : Except String ClientConfig :=
  if knownKeysOnly clientConfigFields m then do
    let allow_http ← decodeOptBool (m.lookup "allow_http")
    let allow_invalid_certificates ← decodeOptBool (m.lookup "allow_invalid_certificates")
    let connect_timeout ← decodeTimeout (m.lookup "connect_timeout")
    let default_content_type ← decodeOptStr (m.lookup "default_content_type")
    let default_headers ← decodeHeaders (m.lookup "default_headers")
    let http1_only ← decodeOptBool (m.lookup "http1_only")
    let http2_keep_alive_interval ← decodeOptStr (m.lookup "http2_keep_alive_interval")
    let http2_keep_alive_timeout ← decodeTimeout (m.lookup "http2_keep_alive_timeout")
    let http2_keep_alive_while_idle ← decodeOptStr (m.lookup "http2_keep_alive_while_idle")
    let http2_only ← decodeOptBool (m.lookup "http2_only")
    let pool_idle_timeout ← decodeTimeout (m.lookup "pool_idle_timeout")
    let pool_max_idle_per_host ← decodeOptStr (m.lookup "pool_max_idle_per_host")
    let proxy_url ← decodeOptStr (m.lookup "proxy_url")
    let timeout ← decodeTimeout (m.lookup "timeout")
    let user_agent ← decodeOptStr (m.lookup "user_agent")
    .ok ⟨allow_http, allow_invalid_certificates, connect_timeout,
         default_content_type, default_headers, http1_only,
         http2_keep_alive_interval, http2_keep_alive_timeout,
         http2_keep_alive_while_idle, http2_only, pool_idle_timeout,
         pool_max_idle_per_host, proxy_url, timeout, user_agent⟩
  else .error "Extra inputs are not permitted"

/-- Construction of `BackoffConfig` (`extra="forbid"`). -/
def validateBackoffConfig (m : List (String × PyVal)) : Except String BackoffConfig :=
  if knownKeysOnly backoffConfigFields m then do
    let base ← decodeNum (m.lookup "base")
    let init_backoff ← decodeOptDelta (m.lookup "init_backoff")
    let max_backoff ← decodeOptDelta (m.lookup "max_backoff")
    .ok ⟨base, init_backoff, max_backoff⟩
  else .error "Extra inputs are not permitted"

/-- `backoff : BackoffConfig | None` field of `RetryConfig`: a nested plain
map is validated recursively into a `BackoffConfig`. -/
def decodeBackoffField : Option PyVal → Except String (Option BackoffConfig)
  | Option.none => .ok Option.none
  | some PyVal.none => .ok Option.none
  | some (PyVal.dict es) => do
      let b ← validateBackoffConfig es
      .ok (some b)
  | some _ => .error "Input should be a valid BackoffConfig"

/-- Construction of `RetryConfig` (`extra="forbid"`). -/
def validateRetryConfig (m : List (String × PyVal)) : Except String RetryConfig :=
  if knownKeysOnly retryConfigFields m then do
    let backoff ← decodeBackoffField (m.lookup "backoff")
    let max_retries ← decodeOptInt (m.lookup "max_retries")
    let retry_timeout ← decodeOptDelta (m.lookup "retry_timeout")
    .ok ⟨backoff, max_retries, retry_timeout⟩
  else .error "Extra inputs are not permitted"

/-- `client_options : ClientConfig | None` field of `Config`. -/
def decodeClientField : Option PyVal → Except String (Option ClientConfig)
  | Option.none => .ok Option.none
  | some PyVal.none => .ok Option.none
  | some (PyVal.dict es) => do
      let c ← validateClientConfig es
      .ok (some c)
  | some _ => .error "Input should be a valid ClientConfig"

/-- `retry_options : RetryConfig | None` field of `Config`. -/
def decodeRetryField : Option PyVal → Except String (Option RetryConfig)
  | Option.none => .ok Option.none
  | some PyVal.none => .ok Option.none
  | some (PyVal.dict es) => do
      let r ← validateRetryConfig es
      .ok (some r)
  | some _ => .error "Input should be a valid RetryConfig"

/-- Construction of `Config` (config.py lines 174-180).  The class declares
no `model_config`, so pydantic's default `extra="ignore"` applies: there is
NO unknown-key check here, undeclared keys are silently ignored. -/
def validateConfig (m : List (String × PyVal)) : Except String Config := do
  let client_options ← decodeClientField (m.lookup "client_options")
  let retry_options ← decodeRetryField (m.lookup "retry_options")
  .ok ⟨client_options, retry_options⟩

/-- Construction of `ObjectMeta` (`extra="forbid"`; `path`, `last_modified`
and `size` required). -/
def validateObjectMeta (m : List (String × PyVal)) : Except String ObjectMeta :=
  if knownKeysOnly objectMetaFields m then do
    let path ← decodeReqStr (m.lookup "path")
    let last_modified ← decodeReqDatetime (m.lookup "last_modified")
    let size ← decodeReqInt (m.lookup "size")
    let e_tag ← decodeOptStr (m.lookup "e_tag")
    let version ← decodeOptStr (m.lookup "version")
    .ok ⟨path, last_modified, size, e_tag, version⟩
  else .error "Extra inputs are not permitted"

/-- Construction of `GetOptions` (`extra="forbid"`). -/
def validateGetOptions (m : List (String × PyVal)) : Except String GetOptions :=
  if knownKeysOnly getOptionsFields m then do
    let head ← decodeOptBool (m.lookup "head")
    let if_match ← decodeOptStr (m.lookup "if_match")
    let if_modified_since ← decodeOptDatetime (m.lookup "if_modified_since")
    let if_none_match ← decodeOptStr (m.lookup "if_none_match")
    let if_unmodified_since ← decodeOptDatetime (m.lookup "if_unmodified_since")
    let range ← decodeRange (m.lookup "range")
    let version ← decodeOptStr (m.lookup "version")
    .ok ⟨head, if_match, if_modified_since, if_none_match,
         if_unmodified_since, range, version⟩
  else .error "Extra inputs are not permitted"

/-! ### Serialization (`model_dump`) -/

/-- `GetOptions.serialize_range` (store.py lines 75-80): a native `range`
object is expanded into an explicit list of ints, every other value is
returned unchanged. -/
def serialize_range (value : PyVal) : PyVal :=
  match value with
  | PyVal.pyrange s e st => PyVal.list ((rangeList s e st).map PyVal.int)
  | v => v

/-- Encode an `Option Bool` field back to its Python value. -/
def encodeOptBool : Option Bool → PyVal
  | Option.none => PyVal.none
  | some b => PyVal.bool b

/-- Encode an `Option String` field. -/
def encodeOptStr : Option String → PyVal
  | Option.none => PyVal.none
  | some s => PyVal.str s

/-- Encode an `Option Int` int field. -/
def encodeOptInt : Option Int → PyVal
  | Option.none => PyVal.none
  | some n => PyVal.int n

/-- Encode an `Option Int` timedelta field. -/
def encodeOptDelta : Option Int → PyVal
  | Option.none => PyVal.none
  | some us => PyVal.timedelta us

/-- Encode an `Option Int` datetime field. -/
def encodeOptDatetime : Option Int → PyVal
  | Option.none => PyVal.none
  | some us => PyVal.datetime us

/-- Encode a `base` number field. -/
def encodeNum : Option NumVal → PyVal
  | Option.none => PyVal.none
  | some (NumVal.nInt i) => PyVal.int i
  | some (NumVal.nFloat m e) => PyVal.float m e

/-- Encode a header value. -/
def encodeHdr : HdrVal → PyVal
  | HdrVal.hstr s => PyVal.str s
  | HdrVal.hbytes bs => PyVal.bytes bs

/-- Encode the `default_headers` field. -/
def encodeHeaders : Option (List (String × HdrVal)) → PyVal
  | Option.none => PyVal.none
  | some hs => PyVal.dict (hs.map (fun kv => (kv.1, encodeHdr kv.2)))

/-- `model_dump` of `ClientConfig` in python mode; `excludeNone` is
pydantic's `exclude_none=True`, dropping fields whose value is `None`. -/
def dumpClientConfig (c : ClientConfig) (excludeNone : Bool) : List (String × PyVal) :=
  let full : List (String × PyVal) :=
    [("allow_http", encodeOptBool c.allow_http),
     ("allow_invalid_certificates", encodeOptBool c.allow_invalid_certificates),
     ("connect_timeout", c.connect_timeout),
     ("default_content_type", encodeOptStr c.default_content_type),
     ("default_headers", encodeHeaders c.default_headers),
     ("http1_only", encodeOptBool c.http1_only),
     ("http2_keep_alive_interval", encodeOptStr c.http2_keep_alive_interval),
     ("http2_keep_alive_timeout", c.http2_keep_alive_timeout),
     ("http2_keep_alive_while_idle", encodeOptStr c.http2_keep_alive_while_idle),
     ("http2_only", encodeOptBool c.http2_only),
     ("pool_idle_timeout", c.pool_idle_timeout),
     ("pool_max_idle_per_host", encodeOptStr c.pool_max_idle_per_host),
     ("proxy_url", encodeOptStr c.proxy_url),
     ("timeout", c.timeout),
     ("user_agent", encodeOptStr c.user_agent)]
  if excludeNone then full.filter (fun kv => !(isNoneVal kv.2)) else full

/-- `model_dump` of `BackoffConfig`. -/
def dumpBackoffConfig (b : BackoffConfig) (excludeNone : Bool) : List (String × PyVal) :=
  let full : List (String × PyVal) :=
    [("base", encodeNum b.base),
     ("init_backoff", encodeOptDelta b.init_backoff),
     ("max_backoff", encodeOptDelta b.max_backoff)]
  if excludeNone then full.filter (fun kv => !(isNoneVal kv.2)) else full

/-- Encode the nested `backoff` field: a nested model dumps to a dict. -/
def encodeBackoffField (b : Option BackoffConfig) (excludeNone : Bool) : PyVal :=
  match b with
  | Option.none => PyVal.none
  | some bo => PyVal.dict (dumpBackoffConfig bo excludeNone)

/-- `model_dump` of `RetryConfig`. -/
def dumpRetryConfig (r : RetryConfig) (excludeNone : Bool) : List (String × PyVal) :=
  let full : List (String × PyVal) :=
    [("backoff", encodeBackoffField r.backoff excludeNone),
     ("max_retries", encodeOptInt r.max_retries),
     ("retry_timeout", encodeOptDelta r.retry_timeout)]
  if excludeNone then full.filter (fun kv => !(isNoneVal kv.2)) else full

/-- Encode the nested `client_options` field. -/
def encodeClientField (c : Option ClientConfig) (excludeNone : Bool) : PyVal :=
  match c with
  | Option.none => PyVal.none
  | some cc => PyVal.dict (dumpClientConfig cc excludeNone)

/-- Encode the nested `retry_options` field. -/
def encodeRetryField (r : Option RetryConfig) (excludeNone : Bool) : PyVal :=
  match r with
  | Option.none => PyVal.none
  | some rc => PyVal.dict (dumpRetryConfig rc excludeNone)

/-- `model_dump` of `Config`. -/
def dumpConfig (c : Config) (excludeNone : Bool) : List (String × PyVal) :=
  let full : List (String × PyVal) :=
    [("client_options", encodeClientField c.client_options excludeNone),
     ("retry_options", encodeRetryField c.retry_options excludeNone)]
  if excludeNone then full.filter (fun kv => !(isNoneVal kv.2)) else full

/-- `model_dump` of `ObjectMeta`. -/
def dumpObjectMeta (o : ObjectMeta) (excludeNone : Bool) : List (String × PyVal) :=
  let full : List (String × PyVal) :=
    [("path", PyVal.str o.path),
     ("last_modified", PyVal.datetime o.last_modified),
     ("size", PyVal.int o.size),
     ("e_tag", encodeOptStr o.e_tag),
     ("version", encodeOptStr o.version)]
  if excludeNone then full.filter (fun kv => !(isNoneVal kv.2)) else full

/-- `model_dump` of `GetOptions`; the `range` field goes through the
`serialize_range` field serializer. -/
def dumpGetOptions (g : GetOptions) (excludeNone : Bool) : List (String × PyVal) :=
  let full : List (String × PyVal) :=
    [("head", encodeOptBool g.head),
     ("if_match", encodeOptStr g.if_match),
     ("if_modified_since", encodeOptDatetime g.if_modified_since),
     ("if_none_match", encodeOptStr g.if_none_match),
     ("if_unmodified_since", encodeOptDatetime g.if_unmodified_since),
     ("range", serialize_range g.range),
     ("version", encodeOptStr g.version)]
  if excludeNone then full.filter (fun kv => !(isNoneVal kv.2)) else full

/-! ### Validity predicates

A Lean structure literal can hold values a real validated instance never
holds (the loosely-typed `PyVal` fields).  These predicates carve out
exactly the values reachable by successful validation. -/

/-- A value a timeout-like field can actually store: `None`, a string or a
timedelta. -/
def isTimeoutShape : PyVal → Bool
  | PyVal.none => true
  | PyVal.str _ => true
  | PyVal.timedelta _ => true
  | _ => false

/-- A value the validated `range` field can actually store. -/
def isValidRange : PyVal → Bool
  | PyVal.none => true
  | PyVal.tuple xs => allInts xs
  | PyVal.list xs => allInts xs
  | PyVal.dict es => allIntVals es
  | _ => false

/-- A `ClientConfig` whose four timeout-like fields hold storable values. -/
def isValidClientConfig (c : ClientConfig) : Bool :=
  isTimeoutShape c.connect_timeout && isTimeoutShape c.http2_keep_alive_timeout
    && isTimeoutShape c.pool_idle_timeout && isTimeoutShape c.timeout

/-- A `Config` whose nested `client_options` (when present) is valid. -/
def isValidConfig (c : Config) : Bool :=
  match c.client_options with
  | Option.none => true
  | some cc => isValidClientConfig cc

/-- A `GetOptions` whose `range` field holds a storable value. -/
def isValidGetOptions (g : GetOptions) : Bool :=
  isValidRange g.range

/-! ### Concrete sample instances (used by witnesses) -/

/-- A `GetOptions` with every field absent. -/
def emptyGetOptions : GetOptions :=
  ⟨Option.none, Option.none, Option.none, Option.none, Option.none,
   PyVal.none, Option.none⟩

/-- The instance of testable property 5: `GetOptions(head=True, if_match="abc123")`. -/
def headIfMatchGetOptions : GetOptions :=
  ⟨some true, some "abc123", Option.none, Option.none, Option.none,
   PyVal.none, Option.none⟩

/-- A `GetOptions` holding a native step-range value in `range` (possible for
a raw structure value; unreachable through validation). -/
def pyrangeGetOptions : GetOptions :=
  ⟨Option.none, Option.none, Option.none, Option.none, Option.none,
   PyVal.pyrange 0 5 1, Option.none⟩

/-- A `GetOptions` whose `range` holds the materialized list of `range(0, 5)`. -/
def listRangeGetOptions : GetOptions :=
  ⟨Option.none, Option.none, Option.none, Option.none, Option.none,
   PyVal.list [PyVal.int 0, PyVal.int 1, PyVal.int 2, PyVal.int 3, PyVal.int 4],
   Option.none⟩

/-- A sample valid `ClientConfig` with both timeout forms present. -/
def sampleClientConfig : ClientConfig :=
  ⟨some true, Option.none, PyVal.str "30s", Option.none,
   some [("User-Agent", HdrVal.hstr "test"), ("Auth", HdrVal.hbytes [1, 2])],
   Option.none, Option.none, PyVal.timedelta 10000000, Option.none,
   Option.none, PyVal.none, Option.none, Option.none,
   PyVal.timedelta 120000000, Option.none⟩

/-- A sample `Config` nesting the sample `ClientConfig` and a `RetryConfig`. -/
def sampleConfig : Config :=
  ⟨some sampleClientConfig,
   some ⟨some ⟨some (NumVal.nInt 2), some 100000, some 15000000⟩, some 10,
         some 180000000⟩⟩

/-! ## Theorems -/

theorem exceptOkBind {e a b : Type} (x : a) (f : a → Except e b) :
    (Except.ok x >>= f : Except e b) = f x := rfl

theorem exceptErrBind {e a b : Type} (err : e) (f : a → Except e b) :
    (Except.error err >>= f : Except e b) = Except.error err := rfl

theorem bind_ok_inv {e a b : Type} {x : Except e a} {f : a → Except e b} {r : b}
    (h : (x >>= f) = .ok r) : ∃ v, x = .ok v ∧ f v = .ok r := by
  cases x with
  | error err => rw [exceptErrBind] at h; cases h
  | ok v => exact ⟨v, rfl, by rw [exceptOkBind] at h; exact h⟩

theorem decodeOptBool_enc (x : Option Bool) :
    decodeOptBool (some (encodeOptBool x)) = .ok x := by cases x <;> rfl

theorem decodeOptStr_enc (x : Option String) :
    decodeOptStr (some (encodeOptStr x)) = .ok x := by cases x <;> rfl

theorem decodeOptInt_enc (x : Option Int) :
    decodeOptInt (some (encodeOptInt x)) = .ok x := by cases x <;> rfl

theorem decodeOptDelta_enc (x : Option Int) :
    decodeOptDelta (some (encodeOptDelta x)) = .ok x := by cases x <;> rfl

theorem decodeOptDatetime_enc (x : Option Int) :
    decodeOptDatetime (some (encodeOptDatetime x)) = .ok x := by cases x <;> rfl

theorem decodeNum_enc (x : Option NumVal) :
    decodeNum (some (encodeNum x)) = .ok x := by
  cases x with
  | none => rfl
  | some v => cases v <;> rfl

theorem decodeTimeout_enc (v : PyVal) (h : isTimeoutShape v = true) :
    decodeTimeout (some v) = .ok v := by
  cases v <;> simp [isTimeoutShape] at h <;> rfl

theorem timeout_shape_false_err (v : PyVal) (h : isTimeoutShape v = false) :
    validate_timeout_fields v = .error "Timeout fields must be string, timedelta, or None" := by
  cases v <;> simp [isTimeoutShape] at h <;> rfl

theorem decodeHdrVal_enc (v : HdrVal) : decodeHdrVal (encodeHdr v) = .ok v := by
  cases v <;> rfl

theorem decodeHdrEntries_enc (hs : List (String × HdrVal)) :
    decodeHdrEntries (hs.map (fun kv => (kv.1, encodeHdr kv.2))) = .ok hs := by
  induction hs with
  | nil => rfl
  | cons kv rest ih =>
      obtain ⟨k, v⟩ := kv
      simp only [List.map_cons, decodeHdrEntries, decodeHdrVal_enc, exceptOkBind, ih]

theorem decodeHeaders_enc (x : Option (List (String × HdrVal))) :
    decodeHeaders (some (encodeHeaders x)) = .ok x := by
  cases x with
  | none => rfl
  | some hs => simp [encodeHeaders, decodeHeaders, decodeHdrEntries_enc, exceptOkBind]

theorem allInts_map (xs : List Int) : allInts (xs.map PyVal.int) = true := by
  induction xs with
  | nil => rfl
  | cons x rest ih => simp [allInts, ih]

theorem isValidRange_not_pyrange (v : PyVal) (h : isValidRange v = true) :
    isPyrangeVal v = false := by
  cases v <;> simp_all [isValidRange, isPyrangeVal]

theorem serialize_range_id (v : PyVal) (h : isPyrangeVal v = false) :
    serialize_range v = v := by
  cases v <;> simp_all [isPyrangeVal, serialize_range]

theorem decodeRangeVal_valid (v : PyVal) (h : isValidRange v = true) :
    decodeRangeVal v = .ok v := by
  cases v <;> simp_all [isValidRange, decodeRangeVal]

theorem decodeRangeVal_shape (v w : PyVal) (h : decodeRangeVal v = .ok w) :
    isValidRange w = true := by
  cases v with
  | none => cases h; rfl
  | tuple xs =>
      simp only [decodeRangeVal] at h
      split at h
      · cases h; simp only [isValidRange]; assumption
      · cases h
  | list xs =>
      simp only [decodeRangeVal] at h
      split at h
      · cases h; simp only [isValidRange]; assumption
      · cases h
  | pyrange s e st => cases h; simp [isValidRange, allInts_map]
  | dict es =>
      simp only [decodeRangeVal] at h
      split at h
      · cases h; simp only [isValidRange]; assumption
      · cases h
  | bool b => cases h
  | int n => cases h
  | float m ex => cases h
  | str s => cases h
  | bytes bs => cases h
  | timedelta us => cases h
  | datetime us => cases h

theorem decodeRange_shape (o : Option PyVal) (w : PyVal) (h : decodeRange o = .ok w) :
    isValidRange w = true := by
  cases o with
  | none => cases h; rfl
  | some v => exact decodeRangeVal_shape v w h

theorem knownKeysOnly_false (fields : List String) (m : List (String × PyVal))
    (k : String) (v : PyVal) (hm : (k, v) ∈ m) (hk : fields.contains k = false) :
    knownKeysOnly fields m = false := by
  unfold knownKeysOnly
  rw [Bool.eq_false_iff]
  intro hall
  have hmem := List.all_eq_true.mp hall (k, v) hm
  rw [hk] at hmem
  cases hmem

theorem roundtrip_bo (b : BackoffConfig) :
    validateBackoffConfig (dumpBackoffConfig b false) = .ok b := by
  simp [validateBackoffConfig, dumpBackoffConfig, knownKeysOnly, backoffConfigFields,
    List.lookup, decodeNum_enc, decodeOptDelta_enc, exceptOkBind]

theorem roundtrip_cc (c : ClientConfig) (h : isValidClientConfig c = true) :
    validateClientConfig (dumpClientConfig c false) = .ok c := by
  simp only [isValidClientConfig, Bool.and_eq_true] at h
  obtain ⟨⟨⟨h1, h2⟩, h3⟩, h4⟩ := h
  simp [validateClientConfig, dumpClientConfig, knownKeysOnly, clientConfigFields,
    List.lookup, decodeOptBool_enc, decodeOptStr_enc, decodeHeaders_enc,
    decodeTimeout_enc _ h1, decodeTimeout_enc _ h2, decodeTimeout_enc _ h3,
    decodeTimeout_enc _ h4, exceptOkBind]

theorem decodeBackoffField_enc (b : Option BackoffConfig) :
    decodeBackoffField (some (encodeBackoffField b false)) = .ok b := by
  cases b with
  | none => rfl
  | some bo =>
      simp [encodeBackoffField, decodeBackoffField, roundtrip_bo, exceptOkBind]

theorem roundtrip_rc (r : RetryConfig) :
    validateRetryConfig (dumpRetryConfig r false) = .ok r := by
  simp [validateRetryConfig, dumpRetryConfig, knownKeysOnly, retryConfigFields,
    List.lookup, decodeBackoffField_enc, decodeOptInt_enc, decodeOptDelta_enc,
    exceptOkBind]

theorem decodeRetryField_enc (r : Option RetryConfig) :
    decodeRetryField (some (encodeRetryField r false)) = .ok r := by
  cases r with
  | none => rfl
  | some rc =>
      simp [encodeRetryField, decodeRetryField, roundtrip_rc, exceptOkBind]

theorem decodeClientField_enc (c : Option ClientConfig)
    (h : (match c with | Option.none => true | some cc => isValidClientConfig cc) = true) :
    decodeClientField (some (encodeClientField c false)) = .ok c := by
  cases c with
  | none => rfl
  | some cc =>
      simp [encodeClientField, decodeClientField, roundtrip_cc cc h, exceptOkBind]

theorem roundtrip_cfg (c : Config) (h : isValidConfig c = true) :
    validateConfig (dumpConfig c false) = .ok c := by
  obtain ⟨co, ro⟩ := c
  simp only [isValidConfig] at h
  simp [validateConfig, dumpConfig, List.lookup,
    decodeClientField_enc co h, decodeRetryField_enc, exceptOkBind]

theorem roundtrip_om (o : ObjectMeta) :
    validateObjectMeta (dumpObjectMeta o false) = .ok o := by
  simp [validateObjectMeta, dumpObjectMeta, knownKeysOnly, objectMetaFields,
    List.lookup, decodeReqStr, decodeReqDatetime, decodeReqInt, decodeOptStr_enc,
    exceptOkBind]

theorem roundtrip_go (g : GetOptions) (h : isValidGetOptions g = true) :
    validateGetOptions (dumpGetOptions g false) = .ok g := by
  simp only [isValidGetOptions] at h
  have hsr : serialize_range g.range = g.range :=
    serialize_range_id _ (isValidRange_not_pyrange _ h)
  simp [validateGetOptions, dumpGetOptions, knownKeysOnly, getOptionsFields,
    List.lookup, hsr, decodeOptBool_enc, decodeOptStr_enc, decodeOptDatetime_enc,
    decodeRange, decodeRangeVal_valid _ h, exceptOkBind]

theorem validateGetOptions_ok_valid (m : List (String × PyVal)) (g : GetOptions)
    (h : validateGetOptions m = .ok g) : isValidRange g.range = true := by
  unfold validateGetOptions at h
  split at h
  · obtain ⟨a1, h1, h⟩ := bind_ok_inv h
    obtain ⟨a2, h2, h⟩ := bind_ok_inv h
    obtain ⟨a3, h3, h⟩ := bind_ok_inv h
    obtain ⟨a4, h4, h⟩ := bind_ok_inv h
    obtain ⟨a5, h5, h⟩ := bind_ok_inv h
    obtain ⟨a6, h6, h⟩ := bind_ok_inv h
    obtain ⟨a7, h7, h⟩ := bind_ok_inv h
    injection h with h
    subst h
    exact decodeRange_shape _ _ h6
  · cases h

/-! ## Claim theorems -/

/-- C1 counterexample: `Config` declares no `extra="forbid"`, so pydantic's
default `extra="ignore"` applies and constructing `Config` from a map with
an undeclared key succeeds (the key is silently dropped) instead of
raising a validation error. -/
theorem config_extra_key_ignored :
    validateConfig [("unknown_field", PyVal.str "value")] =
      .ok ⟨Option.none, Option.none⟩ := rfl

/-- C1 (amended): the five models that declare `extra="forbid"`
(ClientConfig, BackoffConfig, RetryConfig, ObjectMeta, GetOptions) raise a
validation error on any input map containing a key outside their declared
field set; `Config` alone declares no such config and silently ignores
unknown keys. -/
theorem closed_schema_rejection_amended :
    (∀ (m : List (String × PyVal)) (k : String) (v : PyVal), (k, v) ∈ m →
        clientConfigFields.contains k = false →
        ∃ err, validateClientConfig m = .error err)
  ∧ (∀ (m : List (String × PyVal)) (k : String) (v : PyVal), (k, v) ∈ m →
        backoffConfigFields.contains k = false →
        ∃ err, validateBackoffConfig m = .error err)
  ∧ (∀ (m : List (String × PyVal)) (k : String) (v : PyVal), (k, v) ∈ m →
        retryConfigFields.contains k = false →
        ∃ err, validateRetryConfig m = .error err)
  ∧ (∀ (m : List (String × PyVal)) (k : String) (v : PyVal), (k, v) ∈ m →
        objectMetaFields.contains k = false →
        ∃ err, validateObjectMeta m = .error err)
  ∧ (∀ (m : List (String × PyVal)) (k : String) (v : PyVal), (k, v) ∈ m →
        getOptionsFields.contains k = false →
        ∃ err, validateGetOptions m = .error err)
  ∧ (∀ (k : String) (v : PyVal), configFields.contains k = false →
        validateConfig [(k, v)] = .ok ⟨Option.none, Option.none⟩) := by
  refine ⟨?_, ?_, ?_, ?_, ?_, ?_⟩
  · intro m k v hm hk
    exact ⟨"Extra inputs are not permitted",
      by rw [validateClientConfig, knownKeysOnly_false _ _ _ _ hm hk]; rfl⟩
  · intro m k v hm hk
    exact ⟨"Extra inputs are not permitted",
      by rw [validateBackoffConfig, knownKeysOnly_false _ _ _ _ hm hk]; rfl⟩
  · intro m k v hm hk
    exact ⟨"Extra inputs are not permitted",
      by rw [validateRetryConfig, knownKeysOnly_false _ _ _ _ hm hk]; rfl⟩
  · intro m k v hm hk
    exact ⟨"Extra inputs are not permitted",
      by rw [validateObjectMeta, knownKeysOnly_false _ _ _ _ hm hk]; rfl⟩
  · intro m k v hm hk
    exact ⟨"Extra inputs are not permitted",
      by rw [validateGetOptions, knownKeysOnly_false _ _ _ _ hm hk]; rfl⟩
  · intro k v hk
    simp only [configFields, List.contains, List.elem_eq_mem, List.mem_cons,
      List.not_mem_nil, or_false, decide_eq_false_iff_not, not_or] at hk
    obtain ⟨hk1, hk2⟩ := hk
    have e1 : ("client_options" == k) = false := by
      simp [beq_eq_false_iff_ne]; exact fun he => hk1 he.symm
    have e2 : ("retry_options" == k) = false := by
      simp [beq_eq_false_iff_ne]; exact fun he => hk2 he.symm
    simp [validateConfig, List.lookup, e1, e2, decodeClientField,
      decodeRetryField, exceptOkBind]

/-- C1 witness: all six parts instantiated at the concrete unknown key
`"unknown_field"`. -/
theorem closed_schema_rejection_witness :
    (∃ err, validateClientConfig [("unknown_field", PyVal.str "value")] = .error err)
  ∧ (∃ err, validateBackoffConfig [("unknown_field", PyVal.str "value")] = .error err)
  ∧ (∃ err, validateRetryConfig [("unknown_field", PyVal.str "value")] = .error err)
  ∧ (∃ err, validateObjectMeta [("unknown_field", PyVal.str "value")] = .error err)
  ∧ (∃ err, validateGetOptions [("unknown_field", PyVal.str "value")] = .error err)
  ∧ validateConfig [("unknown_field", PyVal.str "value")] =
      .ok ⟨Option.none, Option.none⟩ :=
  ⟨closed_schema_rejection_amended.1 _ "unknown_field" _ (List.mem_singleton.mpr rfl) rfl,
   closed_schema_rejection_amended.2.1 _ "unknown_field" _ (List.mem_singleton.mpr rfl) rfl,
   closed_schema_rejection_amended.2.2.1 _ "unknown_field" _ (List.mem_singleton.mpr rfl) rfl,
   closed_schema_rejection_amended.2.2.2.1 _ "unknown_field" _ (List.mem_singleton.mpr rfl) rfl,
   closed_schema_rejection_amended.2.2.2.2.1 _ "unknown_field" _ (List.mem_singleton.mpr rfl) rfl,
   closed_schema_rejection_amended.2.2.2.2.2 "unknown_field" (PyVal.str "value") rfl⟩

/-- C3: for every record type, reconstructing from the python-mode
`model_dump` map reproduces an equal record.  Validated `ClientConfig`,
`Config` and `GetOptions` instances are characterized by the validity
predicates on their loosely-typed fields; with them the python-mode round
trip is exact — the only lossy cases the claim excepts (binary header
values, a pair-shaped range) arise only in the JSON text encoding, which
is weaker than what is proved here. -/
theorem roundtrip_all_models :
    (∀ c : ClientConfig, isValidClientConfig c = true →
        validateClientConfig (dumpClientConfig c false) = .ok c)
  ∧ (∀ b : BackoffConfig, validateBackoffConfig (dumpBackoffConfig b false) = .ok b)
  ∧ (∀ r : RetryConfig, validateRetryConfig (dumpRetryConfig r false) = .ok r)
  ∧ (∀ c : Config, isValidConfig c = true →
        validateConfig (dumpConfig c false) = .ok c)
  ∧ (∀ o : ObjectMeta, validateObjectMeta (dumpObjectMeta o false) = .ok o)
  ∧ (∀ g : GetOptions, isValidGetOptions g = true →
        validateGetOptions (dumpGetOptions g false) = .ok g) :=
  ⟨roundtrip_cc, roundtrip_bo, roundtrip_rc, roundtrip_cfg, roundtrip_om, roundtrip_go⟩

/-- C3 witness: the hypothesis-bearing parts at concrete instances. -/
theorem roundtrip_all_models_witness :
    (isValidClientConfig sampleClientConfig = true
      ∧ validateClientConfig (dumpClientConfig sampleClientConfig false) =
          .ok sampleClientConfig)
  ∧ (isValidConfig sampleConfig = true
      ∧ validateConfig (dumpConfig sampleConfig false) = .ok sampleConfig)
  ∧ (isValidGetOptions listRangeGetOptions = true
      ∧ validateGetOptions (dumpGetOptions listRangeGetOptions false) =
          .ok listRangeGetOptions) :=
  ⟨⟨rfl, roundtrip_all_models.1 sampleClientConfig rfl⟩,
   ⟨rfl, roundtrip_all_models.2.2.2.1 sampleConfig rfl⟩,
   ⟨rfl, roundtrip_all_models.2.2.2.2.2 listRangeGetOptions rfl⟩⟩

/-- C4: the shared `validate_timeout_fields` before-validator of the four
timeout-like `ClientConfig` fields passes `None`, timedelta and string
values through unchanged, and raises on every value of any other type; the
construction path (`decodeTimeout`, wired to exactly the four fields in
`validateClientConfig`) therefore stores them unchanged. -/
theorem timeout_fields_passthrough :
    (validate_timeout_fields PyVal.none = .ok PyVal.none)
  ∧ (∀ s, validate_timeout_fields (PyVal.str s) = .ok (PyVal.str s))
  ∧ (∀ d, validate_timeout_fields (PyVal.timedelta d) = .ok (PyVal.timedelta d))
  ∧ (∀ v, isTimeoutShape v = false → ∃ err, validate_timeout_fields v = .error err)
  ∧ (∀ v, isTimeoutShape v = true → decodeTimeout (some v) = .ok v)
  ∧ (∀ d1 d2 d3 d4 : Int,
        validateClientConfig
            [("connect_timeout", PyVal.timedelta d1),
             ("http2_keep_alive_timeout", PyVal.timedelta d2),
             ("pool_idle_timeout", PyVal.timedelta d3),
             ("timeout", PyVal.timedelta d4)] =
          .ok ⟨Option.none, Option.none, PyVal.timedelta d1, Option.none,
               Option.none, Option.none, Option.none, PyVal.timedelta d2,
               Option.none, Option.none, PyVal.timedelta d3, Option.none,
               Option.none, PyVal.timedelta d4, Option.none⟩)
  ∧ (∀ v, isTimeoutShape v = false →
        ∃ err, validateClientConfig [("timeout", v)] = .error err) := by
  refine ⟨rfl, fun s => rfl, fun d => rfl, ?_, decodeTimeout_enc,
    fun d1 d2 d3 d4 => rfl, ?_⟩
  · intro v h
    exact ⟨_, timeout_shape_false_err v h⟩
  · intro v h
    refine ⟨"Timeout fields must be string, timedelta, or None", ?_⟩
    have he := timeout_shape_false_err v h
    simp [validateClientConfig, knownKeysOnly, clientConfigFields, List.lookup,
      decodeOptBool, decodeOptStr, decodeHeaders, decodeTimeout, he,
      exceptOkBind, exceptErrBind]

/-- C4 witness: the hypothesis-bearing parts at concrete inputs (an int is
not an accepted timeout value; a string is stored unchanged). -/
theorem timeout_fields_passthrough_witness :
    (∃ err, validate_timeout_fields (PyVal.int 3) = .error err)
  ∧ decodeTimeout (some (PyVal.str "30s")) = .ok (PyVal.str "30s")
  ∧ (∃ err, validateClientConfig [("timeout", PyVal.int 3)] = .error err) :=
  ⟨timeout_fields_passthrough.2.2.2.1 (PyVal.int 3) rfl,
   timeout_fields_passthrough.2.2.2.2.1 (PyVal.str "30s") rfl,
   timeout_fields_passthrough.2.2.2.2.2.2 (PyVal.int 3) rfl⟩

/-- C5: constructing `ObjectMeta` from an input lacking `path`,
`last_modified` or `size` raises a validation error; with the three present
and correctly typed and both optional fields absent, construction succeeds
with `e_tag` and `version` equal to `None`. -/
theorem object_meta_required_fields :
    (∀ m : List (String × PyVal), m.lookup "path" = Option.none →
        ∃ err, validateObjectMeta m = .error err)
  ∧ (∀ m : List (String × PyVal), m.lookup "last_modified" = Option.none →
        ∃ err, validateObjectMeta m = .error err)
  ∧ (∀ m : List (String × PyVal), m.lookup "size" = Option.none →
        ∃ err, validateObjectMeta m = .error err)
  ∧ (∀ (p : String) (t s : Int),
        validateObjectMeta
            [("path", PyVal.str p), ("last_modified", PyVal.datetime t),
             ("size", PyVal.int s)] =
          .ok ⟨p, t, s, Option.none, Option.none⟩) := by
  refine ⟨?_, ?_, ?_, fun p t s => rfl⟩
  · intro m h
    unfold validateObjectMeta
    split
    · exact ⟨"Field required", by rw [h]; rfl⟩
    · exact ⟨"Extra inputs are not permitted", rfl⟩
  · intro m h
    unfold validateObjectMeta
    split
    · cases hp : decodeReqStr (m.lookup "path") with
      | error e => exact ⟨e, rfl⟩
      | ok p => exact ⟨"Field required", by rw [exceptOkBind, h]; rfl⟩
    · exact ⟨"Extra inputs are not permitted", rfl⟩
  · intro m h
    unfold validateObjectMeta
    split
    · cases hp : decodeReqStr (m.lookup "path") with
      | error e => exact ⟨e, rfl⟩
      | ok p =>
          cases ht : decodeReqDatetime (m.lookup "last_modified") with
          | error e => exact ⟨e, rfl⟩
          | ok t =>
              exact ⟨"Field required",
                by rw [exceptOkBind, exceptOkBind, h]; rfl⟩
    · exact ⟨"Extra inputs are not permitted", rfl⟩

/-- C5 witness: the three missing-field parts at concrete maps each lacking
exactly one required key. -/
theorem object_meta_required_fields_witness :
    (∃ err, validateObjectMeta
        [("last_modified", PyVal.datetime 0), ("size", PyVal.int 100)] = .error err)
  ∧ (∃ err, validateObjectMeta
        [("path", PyVal.str "a"), ("size", PyVal.int 100)] = .error err)
  ∧ (∃ err, validateObjectMeta
        [("path", PyVal.str "a"), ("last_modified", PyVal.datetime 0)] = .error err) :=
  ⟨object_meta_required_fields.1 _ rfl,
   object_meta_required_fields.2.1 _ rfl,
   object_meta_required_fields.2.2.1 _ rfl⟩

/-- C6: serializing `GetOptions(head=True, if_match="abc123")` with
`exclude_none=True` yields exactly the two-entry map
`[("head", true), ("if_match", "abc123")]`. -/
theorem get_options_omit_absent_dump :
    dumpGetOptions headIfMatchGetOptions true =
      [("head", PyVal.bool true), ("if_match", PyVal.str "abc123")] := rfl

/-- C7: the `serialize_range` field serializer expands a native step-range
value into the explicit list of its ints and returns every other value
unchanged; through `model_dump` the serialized `range` entry of a
`GetOptions` holding a step-range is that list. -/
theorem serialize_range_expands_pyrange :
    (∀ s e st : Int, serialize_range (PyVal.pyrange s e st) =
        PyVal.list ((rangeList s e st).map PyVal.int))
  ∧ (serialize_range (PyVal.pyrange 0 5 1) =
        PyVal.list [PyVal.int 0, PyVal.int 1, PyVal.int 2, PyVal.int 3, PyVal.int 4])
  ∧ (∀ v, isPyrangeVal v = false → serialize_range v = v)
  ∧ (∀ (g : GetOptions) (s e st : Int), g.range = PyVal.pyrange s e st →
        (dumpGetOptions g false).lookup "range" =
          some (PyVal.list ((rangeList s e st).map PyVal.int))) := by
  refine ⟨fun s e st => rfl, by rfl, serialize_range_id, ?_⟩
  intro g s e st hg
  simp [dumpGetOptions, List.lookup, hg, serialize_range]

/-- C7 witness: the hypothesis-bearing parts at a non-range value and at a
`GetOptions` holding `range(0, 5)`. -/
theorem serialize_range_expands_pyrange_witness :
    serialize_range (PyVal.int 7) = PyVal.int 7
  ∧ (dumpGetOptions pyrangeGetOptions false).lookup "range" =
      some (PyVal.list ((rangeList 0 5 1).map PyVal.int)) :=
  ⟨serialize_range_expands_pyrange.2.2.1 (PyVal.int 7) rfl,
   serialize_range_expands_pyrange.2.2.2 pyrangeGetOptions 0 5 1 rfl⟩

/-- C8: `BackoffConfig` enforces no cross-field ordering — for every pair of
durations with `init_backoff` strictly greater than `max_backoff`,
construction succeeds with both values stored. -/
theorem backoff_no_cross_field_check (initUs maxUs : Int) (h : maxUs < initUs) :
    validateBackoffConfig
        [("init_backoff", PyVal.timedelta initUs),
         ("max_backoff", PyVal.timedelta maxUs)] =
      .ok ⟨Option.none, some initUs, some maxUs⟩ := rfl

/-- C8 witness: init_backoff one microsecond, max_backoff zero. -/
theorem backoff_no_cross_field_check_witness :
    (0 : Int) < 1
  ∧ validateBackoffConfig
        [("init_backoff", PyVal.timedelta 1), ("max_backoff", PyVal.timedelta 0)] =
      .ok ⟨Option.none, some 1, some 0⟩ :=
  ⟨by norm_num, backoff_no_cross_field_check 1 0 (by norm_num)⟩

/-- C9: after any successful construction of `GetOptions` the stored `range`
field is never a native step-range object (a step-range input was
materialized into a list at validation time), so the lazy-range branch of
`serialize_range` acts as the identity on every validated instance. -/
theorem validated_range_never_pyrange (m : List (String × PyVal)) (g : GetOptions)
    (h : validateGetOptions m = .ok g) :
    isPyrangeVal g.range = false ∧ serialize_range g.range = g.range := by
  have hv := validateGetOptions_ok_valid m g h
  have hp := isValidRange_not_pyrange _ hv
  exact ⟨hp, serialize_range_id _ hp⟩

/-- C9 witness: validating a map whose `range` is the step-range
`range(0, 5)` succeeds with the materialized list stored, on which the
theorem applies. -/
theorem validated_range_never_pyrange_witness :
    isPyrangeVal listRangeGetOptions.range = false
  ∧ serialize_range listRangeGetOptions.range = listRangeGetOptions.range :=
  validated_range_never_pyrange [("range", PyVal.pyrange 0 5 1)]
    listRangeGetOptions rfl

/-- C10: `ObjectMeta` puts no bound on `size` beyond it being an int — for
every integer, negative ones included, construction with that size and
valid `path` and `last_modified` succeeds. -/
theorem object_meta_size_unbounded :
    (∀ s : Int, validateObjectMeta
        [("path", PyVal.str "a"), ("last_modified", PyVal.datetime 0),
         ("size", PyVal.int s)] =
      .ok ⟨"a", 0, s, Option.none, Option.none⟩)
  ∧ validateObjectMeta
        [("path", PyVal.str "a"), ("last_modified", PyVal.datetime 0),
         ("size", PyVal.int (-1))] =
      .ok ⟨"a", 0, -1, Option.none, Option.none⟩ :=
  ⟨fun s => rfl, rfl⟩
